import Mathlib

/-!
Shallow embedding of `src/src-tauri/src/commands/ssh/core.rs` (iTermX).

The Rust file drives an SSH library (russh) and a UI event bus (tauri's
`app.emit`).  Those external effects are modelled by an oracle record
`SshWorld` whose fields give the outcome of each external call; the
functions of the embedding mirror the Rust control flow over that
oracle and additionally return the trace of external actions they
performed, in order.  Errors are `String`s exactly as in the source
(`Result<_, String>` with `format!` prefixes).
-/

set_option maxRecDepth 4096

/-- Modelled from the spec: `crate::models::SshConfig` is not under `src/`;
its fields are taken from the spec's ConnectionConfig data model and from
the field accesses in `core.rs` (`host`, `port`, `username`, `password`,
`private_key`, `passphrase`, `connect_timeout`). -/
structure SshConfig where
  host : String
  port : Nat
  username : String
  password : Option String
  private_key : Option String
  passphrase : Option String
  connect_timeout : Option Nat

/-- External actions performed by the embedded functions, recorded in order. -/
inductive SshAction where
  | connect (addr : String) (timeoutSecs : Nat)
  | decodeKey (key : String) (passphrase : Option String)
  | authKey (user : String)
  | authPwd (user : String)
  | channelOpen
  | ptyRequest (term : String) (col row pixw pixh : Nat) (modes : List Nat)
  | shellRequest
deriving DecidableEq

/-- Oracle for the external library and network: each field gives the outcome
of the corresponding russh call.  Errors are the `to_string()` of the
underlying library error. -/
structure SshWorld where
  connect : String → Nat → Except String Unit
  decode_secret_key : String → Option String → Except String String
  authenticate_publickey : String → String → Except String Bool
  authenticate_password : String → String → Except String Bool
  channel_open_session : Except String Unit
  request_pty : Except String Unit
  request_shell : Except String Unit

/-- The address string `format!("{}:{}", config.host, config.port)`. -/
def sshAddr (config : SshConfig) : String :=
  config.host ++ ":" ++ toString config.port

/-- The timeout `config.connect_timeout.unwrap_or(10)`. -/
def sshTimeout (config : SshConfig) : Nat :=
  config.connect_timeout.getD 10

/-- Rust's `char::is_whitespace`: the Unicode White_Space code points. -/
def rustIsWhitespace (c : Char) : Bool :=
  c.toNat = 0x09 || c.toNat = 0x0A || c.toNat = 0x0B || c.toNat = 0x0C ||
  c.toNat = 0x0D || c.toNat = 0x20 || c.toNat = 0x85 || c.toNat = 0xA0 ||
  c.toNat = 0x1680 || (0x2000 ≤ c.toNat && c.toNat ≤ 0x200A) ||
  c.toNat = 0x2028 || c.toNat = 0x2029 || c.toNat = 0x202F ||
  c.toNat = 0x205F || c.toNat = 0x3000

/-- Rust's `s.trim().is_empty()`: true exactly when every character of `s`
is whitespace (trimming whitespace from both ends leaves the empty
string). -/
def trimIsEmpty (s : String) : Bool := s.data.all rustIsWhitespace

/-- The password branch of `establish_base_session_async` (lines 47-54 of
core.rs): try password auth if a password is present, else fail with
the invalid-credentials message.  `tr` is the trace accumulated so far. -/
def password_step (w : SshWorld) (config : SshConfig) (tr : List SshAction) :
    Except String Unit × List SshAction :=
  match config.password with
  | some pwd =>
    match w.authenticate_password config.username pwd with
    | Except.error e => (Except.error e, tr ++ [SshAction.authPwd config.username])
    | Except.ok true => (Except.ok (), tr ++ [SshAction.authPwd config.username])
    | Except.ok false =>
        (Except.error "Auth failed: Invalid credentials",
         tr ++ [SshAction.authPwd config.username])
  | none => (Except.error "Auth failed: Invalid credentials", tr)

/-- Embedding of `establish_base_session_async` (core.rs lines 19-55):
connect, then key auth if a non-blank key is present (hard failure on a
parse error), falling through to password auth when the key is absent,
blank, or rejected by the server.  Returns the result (`Except.ok ()`
stands for the authenticated session handle) and the action trace. -/
def establish_base_session_async (w : SshWorld) (config : SshConfig) :
    Except String Unit × List SshAction :=
  match w.connect (sshAddr config) (sshTimeout config) with
  | Except.error e =>
      (Except.error ("Connection Error: " ++ e),
       [SshAction.connect (sshAddr config) (sshTimeout config)])
  | Except.ok _ =>
    let tr0 := [SshAction.connect (sshAddr config) (sshTimeout config)]
    match config.private_key with
    | some key_content =>
      if trimIsEmpty key_content then
        password_step w config tr0
      else
        let tr1 := tr0 ++ [SshAction.decodeKey key_content config.passphrase]
        match w.decode_secret_key key_content config.passphrase with
        | Except.error e => (Except.error ("Invalid Private Key: " ++ e), tr1)
        | Except.ok key_pair =>
          let tr2 := tr1 ++ [SshAction.authKey config.username]
          match w.authenticate_publickey config.username key_pair with
          | Except.error e => (Except.error e, tr2)
          | Except.ok true => (Except.ok (), tr2)
          | Except.ok false => password_step w config tr2
    | none => password_step w config tr0

/-- Embedding of `create_shell_channel` (core.rs lines 58-76): establish a
session, then open a channel, request a PTY `("xterm", 80, 24, 0, 0, [])`
and request a shell, each step short-circuiting on failure. -/
def create_shell_channel (w : SshWorld) (config : SshConfig) :
    Except String Unit × List SshAction :=
  match establish_base_session_async w config with
  | (Except.error e, tr) => (Except.error e, tr)
  | (Except.ok _, tr) =>
    let tr1 := tr ++ [SshAction.channelOpen]
    match w.channel_open_session with
    | Except.error e => (Except.error ("Channel Open Error: " ++ e), tr1)
    | Except.ok _ =>
      let tr2 := tr1 ++ [SshAction.ptyRequest "xterm" 80 24 0 0 []]
      match w.request_pty with
      | Except.error e => (Except.error ("PTY Request Error: " ++ e), tr2)
      | Except.ok _ =>
        let tr3 := tr2 ++ [SshAction.shellRequest]
        match w.request_shell with
        | Except.error e => (Except.error ("Shell Request Error: " ++ e), tr3)
        | Except.ok _ => (Except.ok (), tr3)

/-- Channel-negotiation actions, as opposed to connection/authentication
actions. -/
def SshAction.isChannelStep : SshAction → Bool
  | SshAction.channelOpen => true
  | SshAction.ptyRequest _ _ _ _ _ _ => true
  | SshAction.shellRequest => true
  | _ => false

/-- The Unicode replacement character U+FFFD, which Rust's
`String::from_utf8_lossy` substitutes for ill-formed subsequences. -/
def replacementChar : Char := Char.ofNat 0xFFFD

/-- Whether a byte is a UTF-8 continuation byte (0x80-0xBF). -/
def isCont (b : Nat) : Bool := 0x80 ≤ b && b ≤ 0xBF

/-- Admissible second byte of a three-byte sequence headed by `b`
(0xE0-0xEF): 0xE0 excludes overlong encodings, 0xED excludes surrogates. -/
def cont3 (b b1 : Nat) : Bool :=
  if b = 0xE0 then 0xA0 ≤ b1 && b1 ≤ 0xBF
  else if b = 0xED then 0x80 ≤ b1 && b1 ≤ 0x9F
  else isCont b1

/-- Admissible second byte of a four-byte sequence headed by `b`
(0xF0-0xF4): 0xF0 excludes overlong encodings, 0xF4 bounds the code point
by U+10FFFF. -/
def cont4 (b b1 : Nat) : Bool :=
  if b = 0xF0 then 0x90 ≤ b1 && b1 ≤ 0xBF
  else if b = 0xF4 then 0x80 ≤ b1 && b1 ≤ 0x8F
  else isCont b1

/-- One step of UTF-8 decoding with U+FFFD substitution: given the first
byte `b` and the remaining bytes, return the decoded character (or the
replacement character for the maximal subpart of an ill-formed
subsequence) and the bytes left to decode. -/
def utf8Step (b : Nat) (rest : List Nat) : Char × List Nat :=
  if b < 0x80 then (Char.ofNat b, rest)
  else if b < 0xC2 then (replacementChar, rest)
  else if b ≤ 0xDF then
    match rest with
    | [] => (replacementChar, [])
    | b1 :: rest1 =>
      if isCont b1 then
        (Char.ofNat ((b - 0xC0) * 0x40 + (b1 - 0x80)), rest1)
      else (replacementChar, b1 :: rest1)
  else if b ≤ 0xEF then
    match rest with
    | [] => (replacementChar, [])
    | b1 :: rest1 =>
      if cont3 b b1 then
        match rest1 with
        | [] => (replacementChar, [])
        | b2 :: rest2 =>
          if isCont b2 then
            (Char.ofNat ((b - 0xE0) * 0x1000 + (b1 - 0x80) * 0x40 + (b2 - 0x80)), rest2)
          else (replacementChar, b2 :: rest2)
      else (replacementChar, b1 :: rest1)
  else if b ≤ 0xF4 then
    match rest with
    | [] => (replacementChar, [])
    | b1 :: rest1 =>
      if cont4 b b1 then
        match rest1 with
        | [] => (replacementChar, [])
        | b2 :: rest2 =>
          if isCont b2 then
            match rest2 with
            | [] => (replacementChar, [])
            | b3 :: rest3 =>
              if isCont b3 then
                (Char.ofNat ((b - 0xF0) * 0x40000 + (b1 - 0x80) * 0x1000 +
                    (b2 - 0x80) * 0x40 + (b3 - 0x80)), rest3)
              else (replacementChar, b3 :: rest3)
          else (replacementChar, b2 :: rest2)
      else (replacementChar, b1 :: rest1)
  else (replacementChar, rest)

/-- UTF-8 decoding with U+FFFD substitution, as performed by Rust's
`String::from_utf8_lossy`: one replacement character per maximal subpart
of an ill-formed subsequence (Unicode's recommended practice, which Rust
documents and implements). -/
def utf8LossyChars : List Nat → List Char
  | [] => []
  | b :: rest => (utf8Step b rest).1 :: utf8LossyChars (utf8Step b rest).2
termination_by l => l.length
decreasing_by
  have h : ∀ (b : Nat) (rest : List Nat), (utf8Step b rest).2.length ≤ rest.length := by
    intro b rest
    unfold utf8Step
    repeat' split
    all_goals simp_all
    all_goals omega
  simp only [List.length_cons]
  exact Nat.lt_succ_of_le (h _ _)

/-- Embedding of `String::from_utf8_lossy(..).to_string()`. -/
def from_utf8_lossy (bytes : List Nat) : String :=
  String.mk (utf8LossyChars bytes)

/-- Whether a byte list is well-formed UTF-8 (same sequence grammar that
`utf8LossyChars` decodes). -/
def isValidUtf8 : List Nat → Bool
  | [] => true
  | b :: rest =>
    if b < 0x80 then isValidUtf8 rest
    else if b < 0xC2 then false
    else if b ≤ 0xDF then
      match rest with
      | [] => false
      | b1 :: rest1 => isCont b1 && isValidUtf8 rest1
    else if b ≤ 0xEF then
      match rest with
      | [] => false
      | b1 :: rest1 =>
        cont3 b b1 &&
          match rest1 with
          | [] => false
          | b2 :: rest2 => isCont b2 && isValidUtf8 rest2
    else if b ≤ 0xF4 then
      match rest with
      | [] => false
      | b1 :: rest1 =>
        cont4 b b1 &&
          match rest1 with
          | [] => false
          | b2 :: rest2 =>
            isCont b2 &&
              match rest2 with
              | [] => false
              | b3 :: rest3 => isCont b3 && isValidUtf8 rest3
    else false

/-- The messages the read loop distinguishes: `Msg::Data`, `Msg::Eof`, and
the catch-all `_ => {}` arm for every other russh channel message. -/
inductive ChannelMsg where
  | data (payload : List Nat)
  | eof
  | other
deriving DecidableEq

/-- Payload of an `app.emit` call: the decoded text of a Data notification
or the unit payload `()` of an Exit notification. -/
inductive EmitPayload where
  | text (s : String)
  | unitPayload
deriving DecidableEq

/-- One `app.emit(event, payload)` call. -/
structure Emission where
  event : String
  payload : EmitPayload
deriving DecidableEq

/-- The Data notification for session `id` and a raw payload:
`app.emit(&format!("term-data-{}", id), text)`. -/
def dataEmission (id : String) (payload : List Nat) : Emission :=
  { event := "term-data-" ++ id, payload := EmitPayload.text (from_utf8_lossy payload) }

/-- The Exit notification for session `id`:
`app.emit(&format!("term-exit-{}", id), ())`. -/
def exitEmission (id : String) : Emission :=
  { event := "term-exit-" ++ id, payload := EmitPayload.unitPayload }

/-- The `while let Some(msg) = channel.wait().await` loop of
`spawn_shell_reader` (core.rs lines 93-105): the channel's event stream is
the list `events` (its end models `wait()` returning `None`).  Each
emission is paired with the sink's success value `emitOk`, which the code
binds as `let _ = app.emit(..)` and discards. -/
def shellReaderLoop (emitOk : Emission → Bool) (id : String) :
    List ChannelMsg → List (Emission × Bool)
  | [] => []
  | ChannelMsg.data p :: rest =>
      (dataEmission id p, emitOk (dataEmission id p)) :: shellReaderLoop emitOk id rest
  | ChannelMsg.eof :: _ => []
  | ChannelMsg.other :: rest => shellReaderLoop emitOk id rest

/-- Embedding of the task body of `spawn_shell_reader` (core.rs lines
90-109): run the read loop, then emit exactly one Exit notification
(whose result is also discarded). -/
def spawn_shell_reader (emitOk : Emission → Bool) (id : String)
    (events : List ChannelMsg) : List (Emission × Bool) :=
  shellReaderLoop emitOk id events ++ [(exitEmission id, emitOk (exitEmission id))]

/-- The notification produced by one channel message: `some` for Data,
`none` for Eof and for ignored message kinds. -/
def dataEmit (id : String) : ChannelMsg → Option Emission
  | ChannelMsg.data p => some (dataEmission id p)
  | _ => none

/-- A world in which every external call succeeds: the connection opens,
any key parses, the server rejects public-key auth but accepts the
password, and channel negotiation succeeds. -/
def okWorld : SshWorld where
  connect := fun _ _ => Except.ok ()
  decode_secret_key := fun _ _ => Except.ok "parsed-key"
  authenticate_publickey := fun _ _ => Except.ok false
  authenticate_password := fun _ _ => Except.ok true
  channel_open_session := Except.ok ()
  request_pty := Except.ok ()
  request_shell := Except.ok ()

/-- A config with a password and no private key. -/
def baseConfig : SshConfig where
  host := "h"
  port := 22
  username := "u"
  password := some "p"
  private_key := none
  passphrase := none
  connect_timeout := none

/-- A world whose key parser rejects every key while the server accepts
the password. -/
def badKeyWorld : SshWorld :=
  { okWorld with decode_secret_key := fun _ _ => Except.error "invalid format" }

/-- A config carrying both an unparseable private key and a valid
password. -/
def badKeyConfig : SshConfig :=
  { baseConfig with private_key := some "not a real key" }

theorem utf8Step_invalid (b : Nat) (rest : List Nat)
    (h : isValidUtf8 (b :: rest) = false) :
    (utf8Step b rest).1 = replacementChar ∨ isValidUtf8 (utf8Step b rest).2 = false := by
  unfold utf8Step
  unfold isValidUtf8 at h
  repeat' split
  all_goals (repeat' split at h)
  all_goals (try omega)
  all_goals simp_all

theorem utf8Lossy_invalid (l : List Nat) (h : isValidUtf8 l = false) :
    replacementChar ∈ utf8LossyChars l := by
  induction l using utf8LossyChars.induct with
  | case1 => simp [isValidUtf8] at h
  | case2 b rest ih =>
    rw [utf8LossyChars]
    rcases utf8Step_invalid b rest h with h1 | h2
    · rw [h1]; exact List.mem_cons_self _ _
    · exact List.mem_cons_of_mem _ (ih h2)

theorem password_step_actions (w : SshWorld) (config : SshConfig)
    (tr : List SshAction) (a : SshAction) (ha : a ∈ (password_step w config tr).2) :
    a ∈ tr ∨ a = SshAction.authPwd config.username := by
  unfold password_step at ha
  repeat' split at ha
  all_goals simp_all

theorem establish_no_channel_step (w : SshWorld) (config : SshConfig) (a : SshAction)
    (ha : a ∈ (establish_base_session_async w config).2) :
    a.isChannelStep = false := by
  unfold establish_base_session_async at ha
  repeat' split at ha
  all_goals (try rcases password_step_actions _ _ _ _ ha with ha | ha)
  all_goals (cases a <;> simp_all [SshAction.isChannelStep])

theorem exitEmission_ne_dataEmission (id id2 : String) (p : List Nat) :
    exitEmission id ≠ dataEmission id2 p := by
  simp [exitEmission, dataEmission]

theorem exitEmission_notin_loop (emitOk : Emission → Bool) (id : String)
    (events : List ChannelMsg) :
    exitEmission id ∉ (shellReaderLoop emitOk id events).map Prod.fst := by
  induction events with
  | nil => simp [shellReaderLoop]
  | cons m rest ih =>
    cases m with
    | data p => simpa [shellReaderLoop, exitEmission_ne_dataEmission] using ih
    | eof => simp [shellReaderLoop]
    | other => simpa [shellReaderLoop] using ih

theorem shellReaderLoop_eof (emitOk : Emission → Bool) (id : String)
    (pre post : List ChannelMsg) (hpre : ChannelMsg.eof ∉ pre) :
    (shellReaderLoop emitOk id (pre ++ ChannelMsg.eof :: post)).map Prod.fst
      = pre.filterMap (dataEmit id) := by
  induction pre with
  | nil => simp [shellReaderLoop, dataEmit]
  | cons m rest ih =>
    cases m with
    | data p => simp_all [shellReaderLoop, dataEmit]
    | eof => simp at hpre
    | other => simp_all [shellReaderLoop, dataEmit]

theorem shellReaderLoop_map_fst_ext (f g : Emission → Bool) (id : String)
    (events : List ChannelMsg) :
    (shellReaderLoop f id events).map Prod.fst
      = (shellReaderLoop g id events).map Prod.fst := by
  induction events with
  | nil => rfl
  | cons m rest ih => cases m <;> simp_all [shellReaderLoop]

/-- C1: if the config's private key is present and non-blank after trimming
and the key material fails to parse with the optional passphrase, then
establish returns the InvalidKey error and password authentication is
never attempted, even when a valid password is also supplied. -/
theorem claim_C1 (w : SshWorld) (config : SshConfig) (k e : String)
    (hconn : w.connect (sshAddr config) (sshTimeout config) = Except.ok ())
    (hk : config.private_key = some k)
    (hnb : trimIsEmpty k = false)
    (hdec : w.decode_secret_key k config.passphrase = Except.error e) :
    (establish_base_session_async w config).1
        = Except.error ("Invalid Private Key: " ++ e)
    ∧ ∀ u, SshAction.authPwd u ∉ (establish_base_session_async w config).2 := by
  unfold establish_base_session_async
  rw [hconn, hk]
  simp [hnb, hdec]

theorem claim_C1_witness :
    (establish_base_session_async
        { okWorld with decode_secret_key := fun _ _ => Except.error "bad" }
        { baseConfig with private_key := some "not a real key" }).1
      = Except.error ("Invalid Private Key: " ++ "bad") :=
  (claim_C1 _ _ "not a real key" "bad" rfl rfl rfl rfl).1

/-- C2: for a sequence of channel events ending in Eof, the read loop emits
one Data notification named term-data-id per Data event before the Eof, in
order, then exactly one Exit notification named term-exit-id, nothing
after it, and no dedicated notification for the Eof itself. -/
theorem claim_C2 (emitOk : Emission → Bool) (id : String)
    (pre post : List ChannelMsg) (hpre : ChannelMsg.eof ∉ pre) :
    (spawn_shell_reader emitOk id (pre ++ ChannelMsg.eof :: post)).map Prod.fst
      = pre.filterMap (dataEmit id) ++ [exitEmission id] := by
  simp [spawn_shell_reader, shellReaderLoop_eof emitOk id pre post hpre]

theorem claim_C2_witness :
    ChannelMsg.eof ∉ [ChannelMsg.data [0x68], ChannelMsg.other]
    ∧ (spawn_shell_reader (fun _ => true) "A"
          ([ChannelMsg.data [0x68], ChannelMsg.other]
            ++ ChannelMsg.eof :: [ChannelMsg.data [0x69]])).map Prod.fst
        = [ChannelMsg.data [0x68], ChannelMsg.other].filterMap (dataEmit "A")
          ++ [exitEmission "A"] :=
  ⟨by decide, claim_C2 (fun _ => true) "A" _ _ (by decide)⟩

/-- C3: for every sequence of channel events, whether it contains an Eof or
is exhausted without one, exactly one Exit notification is emitted for the
session, after all other notifications. -/
theorem claim_C3 (emitOk : Emission → Bool) (id : String)
    (events : List ChannelMsg) :
    ∃ pre, (spawn_shell_reader emitOk id events).map Prod.fst
        = pre ++ [exitEmission id]
      ∧ exitEmission id ∉ pre :=
  ⟨(shellReaderLoop emitOk id events).map Prod.fst,
    by simp [spawn_shell_reader],
    exitEmission_notin_loop emitOk id events⟩

/-- C4 as stated is false on the code: an unparseable (invalid) private key
aborts establish with an InvalidKey error even though a valid password
accepted by the server is present, so authentication does not succeed via
password.  Witnessed at private_key = "not a real key". -/
theorem claim_C4_counterexample :
    badKeyConfig.private_key = some "not a real key"
    ∧ badKeyConfig.password = some "p"
    ∧ badKeyWorld.decode_secret_key "not a real key" badKeyConfig.passphrase
        = Except.error "invalid format"
    ∧ badKeyWorld.authenticate_password badKeyConfig.username "p" = Except.ok true
    ∧ (establish_base_session_async badKeyWorld badKeyConfig).1 ≠ Except.ok () := by
  refine ⟨rfl, rfl, rfl, rfl, ?_⟩
  have h : (establish_base_session_async badKeyWorld badKeyConfig).1
      = Except.error ("Invalid Private Key: " ++ "invalid format") := rfl
  rw [h]
  exact fun hc => Except.noConfusion hc

/-- C4 (amended): for all configs whose private key is absent or blank, or
parses but is rejected by the server, and whose password is accepted by
the server, establish succeeds via password authentication and returns an
authenticated session. -/
theorem claim_C4 (w : SshWorld) (config : SshConfig) (p : String)
    (hconn : w.connect (sshAddr config) (sshTimeout config) = Except.ok ())
    (hkey : config.private_key = none
      ∨ (∃ k, config.private_key = some k ∧ trimIsEmpty k = true)
      ∨ (∃ k kp, config.private_key = some k ∧ trimIsEmpty k = false
          ∧ w.decode_secret_key k config.passphrase = Except.ok kp
          ∧ w.authenticate_publickey config.username kp = Except.ok false))
    (hpwd : config.password = some p)
    (hpass : w.authenticate_password config.username p = Except.ok true) :
    (establish_base_session_async w config).1 = Except.ok ()
    ∧ SshAction.authPwd config.username ∈ (establish_base_session_async w config).2 := by
  unfold establish_base_session_async
  rw [hconn]
  rcases hkey with hnone | ⟨k, hk, hblank⟩ | ⟨k, kp, hk, hnb, hdec, hpub⟩ <;>
    simp_all [password_step]

theorem claim_C4_witness :
    (establish_base_session_async okWorld baseConfig).1 = Except.ok () :=
  (claim_C4 okWorld baseConfig "p" rfl (Or.inl rfl) rfl rfl).1

/-- C5: a present, non-blank private key that parses but is rejected by the
server (the attempt resolves to not-authenticated without error) falls
through to password authentication, which succeeds when the server accepts
the password. -/
theorem claim_C5 (w : SshWorld) (config : SshConfig) (k kp pwd : String)
    (hconn : w.connect (sshAddr config) (sshTimeout config) = Except.ok ())
    (hk : config.private_key = some k)
    (hnb : trimIsEmpty k = false)
    (hdec : w.decode_secret_key k config.passphrase = Except.ok kp)
    (hpub : w.authenticate_publickey config.username kp = Except.ok false)
    (hpwd : config.password = some pwd)
    (hpass : w.authenticate_password config.username pwd = Except.ok true) :
    (establish_base_session_async w config).1 = Except.ok ()
    ∧ SshAction.authPwd config.username ∈ (establish_base_session_async w config).2 := by
  unfold establish_base_session_async
  rw [hconn, hk]
  simp [hnb, hdec, hpub, password_step, hpwd, hpass]

theorem claim_C5_witness :
    (establish_base_session_async okWorld
        { baseConfig with private_key := some "valid key" }).1 = Except.ok () :=
  (claim_C5 okWorld _ "valid key" "parsed-key" "p" rfl rfl rfl rfl rfl rfl rfl).1

/-- C6: when neither the key path nor the password path positively succeeds
(key absent, blank, or rejected by the server; password absent or
rejected), establish fails with the AuthFailed error carrying the message
Invalid credentials, and establish creates no channel on any path. -/
theorem claim_C6 (w : SshWorld) (config : SshConfig)
    (hconn : w.connect (sshAddr config) (sshTimeout config) = Except.ok ())
    (hkey : config.private_key = none
      ∨ (∃ k, config.private_key = some k ∧ trimIsEmpty k = true)
      ∨ (∃ k kp, config.private_key = some k ∧ trimIsEmpty k = false
          ∧ w.decode_secret_key k config.passphrase = Except.ok kp
          ∧ w.authenticate_publickey config.username kp = Except.ok false))
    (hpwd : config.password = none
      ∨ (∃ p, config.password = some p
          ∧ w.authenticate_password config.username p = Except.ok false)) :
    (establish_base_session_async w config).1
        = Except.error "Auth failed: Invalid credentials"
    ∧ ∀ (w2 : SshWorld) (c2 : SshConfig),
        SshAction.channelOpen ∉ (establish_base_session_async w2 c2).2 := by
  constructor
  · unfold establish_base_session_async
    rw [hconn]
    rcases hkey with hnone | ⟨k, hk, hblank⟩ | ⟨k, kp, hk, hnb, hdec, hpub⟩ <;>
      rcases hpwd with hpnone | ⟨p, hp, hpass⟩ <;>
        simp_all [password_step]
  · intro w2 c2 hmem
    have h := establish_no_channel_step w2 c2 _ hmem
    simp [SshAction.isChannelStep] at h

theorem claim_C6_witness :
    (establish_base_session_async
        { okWorld with authenticate_password := fun _ _ => Except.ok false }
        baseConfig).1
      = Except.error "Auth failed: Invalid credentials" :=
  (claim_C6 _ baseConfig rfl (Or.inl rfl) (Or.inr ⟨"p", rfl, rfl⟩)).1

/-- C7: shell-channel negotiation performs channel-open, then the PTY
request with terminal type xterm, 80 columns, 24 rows, no pixel sizes and
no modes, then the shell request, in that fixed order; a failure at any
step short-circuits the rest, and the three failures carry distinct error
kinds. -/
theorem claim_C7 (w : SshWorld) (config : SshConfig)
    (hest : (establish_base_session_async w config).1 = Except.ok ()) :
    ((create_shell_channel w config).2.filter SshAction.isChannelStep
        = [SshAction.channelOpen]
      ∨ (create_shell_channel w config).2.filter SshAction.isChannelStep
        = [SshAction.channelOpen, SshAction.ptyRequest "xterm" 80 24 0 0 []]
      ∨ (create_shell_channel w config).2.filter SshAction.isChannelStep
        = [SshAction.channelOpen, SshAction.ptyRequest "xterm" 80 24 0 0 [],
           SshAction.shellRequest])
    ∧ (∀ e, w.channel_open_session = Except.error e →
        (create_shell_channel w config).2.filter SshAction.isChannelStep
          = [SshAction.channelOpen]
        ∧ (create_shell_channel w config).1
          = Except.error ("Channel Open Error: " ++ e))
    ∧ (∀ e, w.channel_open_session = Except.ok () → w.request_pty = Except.error e →
        (create_shell_channel w config).2.filter SshAction.isChannelStep
          = [SshAction.channelOpen, SshAction.ptyRequest "xterm" 80 24 0 0 []]
        ∧ (create_shell_channel w config).1
          = Except.error ("PTY Request Error: " ++ e))
    ∧ (∀ e, w.channel_open_session = Except.ok () → w.request_pty = Except.ok () →
        w.request_shell = Except.error e →
        (create_shell_channel w config).2.filter SshAction.isChannelStep
          = [SshAction.channelOpen, SshAction.ptyRequest "xterm" 80 24 0 0 [],
             SshAction.shellRequest]
        ∧ (create_shell_channel w config).1
          = Except.error ("Shell Request Error: " ++ e))
    ∧ (∀ e1 e2 : String,
        "Channel Open Error: " ++ e1 ≠ "PTY Request Error: " ++ e2
        ∧ "Channel Open Error: " ++ e1 ≠ "Shell Request Error: " ++ e2
        ∧ "PTY Request Error: " ++ e1 ≠ "Shell Request Error: " ++ e2) := by
  have hfil : (establish_base_session_async w config).2.filter SshAction.isChannelStep
      = [] := by
    rw [List.filter_eq_nil_iff]
    intro a ha
    simp [establish_no_channel_step w config a ha]
  rcases hEq : establish_base_session_async w config with ⟨r, tr⟩
  rw [hEq] at hest hfil
  simp only at hest hfil
  subst hest
  have hstr : ∀ e1 e2 : String,
      "Channel Open Error: " ++ e1 ≠ "PTY Request Error: " ++ e2
      ∧ "Channel Open Error: " ++ e1 ≠ "Shell Request Error: " ++ e2
      ∧ "PTY Request Error: " ++ e1 ≠ "Shell Request Error: " ++ e2 := by
    intro e1 e2
    refine ⟨?_, ?_, ?_⟩ <;>
      · intro h
        have h2 := congrArg String.data h
        simp [String.data_append] at h2
  unfold create_shell_channel
  rw [hEq]
  rcases hco : w.channel_open_session with e | u
  · simp [hco, hfil, SshAction.isChannelStep, hstr]
  · rcases hpty : w.request_pty with e | u2
    · simp [hco, hpty, hfil, SshAction.isChannelStep, hstr]
    · rcases hsh : w.request_shell with e | u3 <;>
        simp [hco, hpty, hsh, hfil, SshAction.isChannelStep, hstr]

theorem claim_C7_witness :
    (create_shell_channel
        { okWorld with channel_open_session := Except.error "no channel" }
        baseConfig).1
      = Except.error ("Channel Open Error: " ++ "no channel") :=
  ((claim_C7 { okWorld with channel_open_session := Except.error "no channel" }
      baseConfig rfl).2.1 "no channel" rfl).2

/-- C8: every Data event is decoded with Rust's lossy UTF-8 decoding and
forwarded while the loop continues, and on any ill-formed payload the
decoded text contains the standard replacement character; malformed bytes
never abort the loop. -/
theorem claim_C8 :
    (∀ (emitOk : Emission → Bool) (id : String) (p : List Nat)
        (rest : List ChannelMsg),
        shellReaderLoop emitOk id (ChannelMsg.data p :: rest)
          = (dataEmission id p, emitOk (dataEmission id p))
              :: shellReaderLoop emitOk id rest)
    ∧ ∀ bytes : List Nat, isValidUtf8 bytes = false →
        replacementChar ∈ (from_utf8_lossy bytes).data :=
  ⟨fun _ _ _ _ => rfl, fun bytes h => utf8Lossy_invalid bytes h⟩

theorem claim_C8_witness :
    isValidUtf8 [0xFF] = false
    ∧ replacementChar ∈ (from_utf8_lossy [0xFF]).data :=
  ⟨by decide, claim_C8.2 [0xFF] (by decide)⟩

/-- C9: the sequence of notifications the read loop attempts is independent
of the sink's success or failure responses; emission results are discarded
and termination is driven solely by the event stream. -/
theorem claim_C9 (f g : Emission → Bool) (id : String) (events : List ChannelMsg) :
    (spawn_shell_reader f id events).map Prod.fst
      = (spawn_shell_reader g id events).map Prod.fst := by
  simp [spawn_shell_reader, shellReaderLoop_map_fst_ext f g id events]

/-- C10: when the private key parses but the public-key authentication
exchange itself returns a transport-level error, establish fails with that
error's message and password authentication is never attempted. -/
theorem claim_C10 (w : SshWorld) (config : SshConfig) (k kp e : String)
    (hconn : w.connect (sshAddr config) (sshTimeout config) = Except.ok ())
    (hk : config.private_key = some k)
    (hnb : trimIsEmpty k = false)
    (hdec : w.decode_secret_key k config.passphrase = Except.ok kp)
    (hpub : w.authenticate_publickey config.username kp = Except.error e) :
    (establish_base_session_async w config).1 = Except.error e
    ∧ ∀ u, SshAction.authPwd u ∉ (establish_base_session_async w config).2 := by
  unfold establish_base_session_async
  rw [hconn, hk]
  simp [hnb, hdec, hpub]

theorem claim_C10_witness :
    (establish_base_session_async
        { okWorld with authenticate_publickey := fun _ _ => Except.error "proto failure" }
        { baseConfig with private_key := some "valid key" }).1
      = Except.error "proto failure" :=
  (claim_C10 _ _ "valid key" "parsed-key" "proto failure" rfl rfl rfl rfl rfl).1
